import Mathlib

/-!
Verification of the GstGLWindow / glimagesink core (gst-plugins-bad).

Shallow embedding of:
  * the window factory `gst_gl_window_new` (gstglwindow.c),
  * the dummy-window message dispatch (`_run_message`,
    `gst_gl_dummy_window_send_message_async`),
  * the generic synchronous message round trip
    (`gst_gl_window_default_send_message`, `_run_message_sync`),
  * `gst_gl_window_quit` / `gst_gl_window_draw` and the callback registry
    setters,
  * the sink-side render coordinator (`gst_glimage_sink_show_frame`,
    drain/state-change teardown, `gst_glimage_sink_redisplay`,
    `gst_glimage_sink_on_resize`, `gst_glimage_sink_on_draw`).

Pointers are modelled as `Option Nat` (none = NULL) or plain `Nat` ids,
machine integers as `Int`/`Nat`, and side effects as explicit event traces.
-/

namespace GstGL

/-! ### Window factory (gst_gl_window_new) -/

/-- The platform window backends that can be compiled in, in the order their
`#if GST_GL_HAVE_WINDOW_*` blocks appear in `gst_gl_window_new`. -/
inductive Backend
  | cocoa
  | x11
  | win32
  | wayland
  | dispmanx
  | android
  | eagl
deriving DecidableEq, Repr, Fintype

/-- The backend name searched for in the `GST_GL_WINDOW` user choice. -/
def backendName : Backend → String
  | .cocoa => "cocoa"
  | .x11 => "x11"
  | .win32 => "win32"
  | .wayland => "wayland"
  | .dispmanx => "dispmanx"
  | .android => "android"
  | .eagl => "eagl"

/-- `g_strstr_len haystack len needle`: true iff `needle` occurs entirely
within the first `len` characters of `haystack` (GLib's `g_strstr_len`
returns a non-NULL pointer exactly in that case). -/
def gStrstrLen (haystack : String) (len : Nat) (needle : String) : Bool :=
  (List.range (len + 1)).any (fun i =>
    decide (i + needle.data.length ≤ len) &&
    decide (i + needle.data.length ≤ haystack.data.length) &&
    ((haystack.data.drop i).take needle.data.length == needle.data))

/-- Which backends the build compiled in (`GST_GL_HAVE_WINDOW_*`) and whether
each backend's `*_new` call produces a window (a subclass may return NULL). -/
structure FactoryConfig where
  compiledIn : Backend → Bool
  newSucceeds : Backend → Bool

/-- The fixed order in which `gst_gl_window_new` tries the backends. -/
def priorityOrder : List Backend :=
  [.cocoa, .x11, .win32, .wayland, .dispmanx, .android, .eagl]

/-- One `if (!window && (!user_choice || g_strstr_len (user_choice, n, name)))`
guard of `gst_gl_window_new`: the backend must be compiled in, the user choice
must be unset or contain the backend name, and the backend's `new` must
return a window. -/
def tryBackend (cfg : FactoryConfig) (choice : Option String) (b : Backend) :
    Bool :=
  cfg.compiledIn b &&
  (match choice with
   | none => true
   | some s => gStrstrLen s (backendName b).length (backendName b)) &&
  cfg.newSucceeds b

/-- The first backend whose guard succeeds, following the cascade of `if`
blocks in `gst_gl_window_new`. -/
def chooseBackend (cfg : FactoryConfig) (choice : Option String) :
    Option Backend :=
  priorityOrder.find? (tryBackend cfg choice)

/-- The window object returned by the factory. -/
inductive GLWindow
  | platform (b : Backend)
  | dummy
deriving DecidableEq, Repr

/-- `gst_gl_window_new`: `g_return_val_if_fail (display != NULL, NULL)`, then
the backend cascade, then the dummy-window fallback when no backend produced
a window. `display` is the display pointer (`none` = NULL). -/
def gst_gl_window_new (cfg : FactoryConfig) (display : Option Nat)
    (choice : Option String) : Option GLWindow :=
  match display with
  | none => none
  | some _ =>
      some (match chooseBackend cfg choice with
            | some b => GLWindow.platform b
            | none => GLWindow.dummy)

/-- The factory as claim C9 describes it: an unmatched override is said to
fall back through the same fixed priority order of compiled-in backends
before finally creating the dummy window. -/
def gst_gl_window_new_claimed (cfg : FactoryConfig) (display : Option Nat)
    (choice : Option String) : Option GLWindow :=
  match display with
  | none => none
  | some _ =>
      some (match chooseBackend cfg choice with
            | some b => GLWindow.platform b
            | none =>
                match choice with
                | none => GLWindow.dummy
                | some _ =>
                    match chooseBackend cfg none with
                    | some b => GLWindow.platform b
                    | none => GLWindow.dummy)

/-- A build with only the x11 backend compiled in and working. -/
def x11OnlyConfig : FactoryConfig where
  compiledIn := fun b => b = Backend.x11
  newSucceeds := fun _ => true

/-! ### Render coordinator (glimagesink) -/

/-- The sink-side state touched by the texture-handoff protocol.  Texture ids
are `Nat` (0 = none), buffer pointers are `Option Nat` buffer ids, sizes are
machine `gint`s modelled as `Int`. -/
structure SinkState where
  redisplay_texture : Nat
  stored_buffer : Option Nat
  next_tex : Nat
  next_buffer : Option Nat
  /-- whether `redisplay_shader` is non-NULL (the shader object compiled) -/
  redisplay_shader : Bool
  window_width : Int
  window_height : Int
  /-- `GST_VIDEO_SINK_WIDTH` / `GST_VIDEO_SINK_HEIGHT` -/
  video_width : Int
  video_height : Int
  caps_change : Bool
  keep_aspect_ratio : Bool
  to_quit : Bool
deriving DecidableEq, Repr

/-- Observable actions of the sink: drawing-lock operations, texture/buffer
reference traffic, GL work requests and errors. -/
inductive SEv
  | lockS
  | unlockS
  | setTex (t : Nat)
  | refBuf (b : Nat)
  | unrefBuf (b : Nat)
  | storeBuf (b : Option Nat)
  | clearNextBuf
  | compileAttempt
  | requestDraw
  | reshapeSignal (w h : Int)
  | viewport (x y w h : Int)
  | viewportAspect (srcw srch dstw dsth : Int)
  | clientDraw (t : Nat)
  | defaultDraw (t : Nat)
  | sinkError
deriving DecidableEq, Repr

/-- The GL-side environment a redisplay call runs against: whether
`gst_gl_context_get_window` returns a window, whether that window's runloop
is running, and whether a shader compilation attempted now would succeed. -/
structure GLEnv where
  windowPresent : Bool
  windowRunning : Bool
  compileOk : Bool
deriving DecidableEq, Repr

/-- `gst_glimage_sink_thread_init_redisplay`, run on the gl thread: allocate
the shader, and on compile failure call `gst_glimage_sink_cleanup_glthread`,
which unrefs it and puts `redisplay_shader` back to NULL. -/
def gst_glimage_sink_thread_init_redisplay (s : SinkState) (compileOk : Bool) :
    SinkState × List SEv :=
  (if compileOk then { s with redisplay_shader := true }
   else { s with redisplay_shader := false },
   [SEv.compileAttempt])

/-- `gst_glimage_sink_redisplay`: NULL window check; while running, lazily
compile the shader if it is still NULL and bail out with FALSE if it remains
NULL; otherwise request a draw.  Returns the updated state, the `gboolean`
result (`alive`), and the emitted events. -/
def gst_glimage_sink_redisplay (s : SinkState) (env : GLEnv) :
    SinkState × Bool × List SEv :=
  if !env.windowPresent then (s, false, [])
  else if env.windowRunning then
    let r :=
      if !s.redisplay_shader then
        gst_glimage_sink_thread_init_redisplay s env.compileOk
      else (s, [])
    if !r.1.redisplay_shader then (r.1, false, r.2)
    else (r.1, env.windowRunning, r.2 ++ [SEv.requestDraw])
  else (s, env.windowRunning, [])

/-- `n` successive calls to `gst_glimage_sink_redisplay` against a fixed
environment, collecting each call's boolean result and the event trace. -/
def redisplayIter (env : GLEnv) : Nat → SinkState → SinkState × List Bool × List SEv
  | 0, s => (s, [], [])
  | n + 1, s =>
      let r := gst_glimage_sink_redisplay s env
      let rest := redisplayIter env n r.1
      (rest.1, r.2.1 :: rest.2.1, r.2.2 ++ rest.2.2)

/-- `gst_glimage_sink_show_frame`: under the drawing lock publish
`next_tex`/`next_buffer` (taking a new reference), remember the previously
stored buffer, unlock, ask for a redisplay, and only then drop the old
reference; on redisplay failure or a pending `to_quit` report a flow error. -/
def gst_glimage_sink_show_frame (s : SinkState) (env : GLEnv) :
    SinkState × Bool × List SEv :=
  let stored := s.stored_buffer
  let s1 : SinkState :=
    { s with redisplay_texture := s.next_tex, stored_buffer := s.next_buffer }
  let lockEvs : List SEv :=
    [SEv.lockS, SEv.setTex s.next_tex] ++
    (match s.next_buffer with
     | some nb => [SEv.refBuf nb]
     | none => []) ++
    [SEv.storeBuf s.next_buffer, SEv.unlockS]
  let rr := gst_glimage_sink_redisplay s1 env
  if rr.2.1 = false then
    (rr.1, false, lockEvs ++ rr.2.2 ++ [SEv.sinkError])
  else
    let unrefEvs : List SEv :=
      match stored with
      | some b => [SEv.unrefBuf b]
      | none => []
    if rr.1.to_quit then
      (rr.1, false, lockEvs ++ rr.2.2 ++ unrefEvs ++ [SEv.sinkError])
    else
      (rr.1, true, lockEvs ++ rr.2.2 ++ unrefEvs)

/-- The `GST_QUERY_DRAIN` arm of `gst_glimage_sink_query`: under the lock set
`redisplay_texture` to 0 and swap the stored buffer out, unlock, unref the
old buffer if any, then drop `next_buffer`. -/
def gst_glimage_sink_query_drain (s : SinkState) : SinkState × List SEv :=
  let buf := s.stored_buffer
  ({ s with redisplay_texture := 0, stored_buffer := none, next_buffer := none },
   [SEv.lockS, SEv.setTex 0, SEv.storeBuf none, SEv.unlockS] ++
   (match buf with
    | some b => [SEv.unrefBuf b]
    | none => []) ++
   [SEv.clearNextBuf])

/-- The `GST_STATE_CHANGE_PAUSED_TO_READY` arm of
`gst_glimage_sink_change_state`: under the lock mark `redisplay_texture`
unavailable (0) and unref/clear the stored buffer, then drop `next_buffer`. -/
def gst_glimage_sink_change_state_paused_to_ready (s : SinkState) :
    SinkState × List SEv :=
  ({ s with redisplay_texture := 0, stored_buffer := none, next_buffer := none },
   [SEv.lockS, SEv.setTex 0] ++
   (match s.stored_buffer with
    | some b => [SEv.unrefBuf b]
    | none => []) ++
   [SEv.storeBuf none, SEv.unlockS, SEv.clearNextBuf])

/-- `gst_glimage_sink_on_resize`, run on the gl thread: emit the
client-reshape signal with the raw values, clamp both dimensions to at least
1, store them, and when no client handled the reshape recompute the viewport
(letterboxed via `gst_video_sink_center_rect` when aspect-ratio lock is on,
stretched otherwise; the letterbox rectangle arithmetic is the external
collaborator's). -/
def gst_glimage_sink_on_resize (s : SinkState) (width height : Int)
    (reshapeHandled : Bool) : SinkState × List SEv :=
  let w := max 1 width
  let h := max 1 height
  let s1 := { s with window_width := w, window_height := h }
  (s1,
   [SEv.reshapeSignal width height] ++
   (if !reshapeHandled then
      (if s.keep_aspect_ratio then
         [SEv.viewportAspect s.video_width s.video_height w h]
       else [SEv.viewport 0 0 w h])
    else []))

/-- `gst_glimage_sink_on_draw`, run on the gl thread: take the drawing lock;
if `redisplay_texture` is 0 unlock and return; otherwise consume a pending
`caps_change` by replaying the resize outside the lock, emit the client-draw
signal, and issue the default textured-quad draw when the client declined. -/
def gst_glimage_sink_on_draw (s : SinkState)
    (clientConsumed reshapeHandled : Bool) : SinkState × List SEv :=
  if s.redisplay_texture = 0 then (s, [SEv.lockS, SEv.unlockS])
  else
    let r :=
      if s.caps_change && decide (0 < s.window_width) &&
          decide (0 < s.window_height) then
        let rr := gst_glimage_sink_on_resize s s.window_width s.window_height
          reshapeHandled
        ({ rr.1 with caps_change := false },
         [SEv.unlockS] ++ rr.2 ++ [SEv.lockS])
      else (s, [])
    (r.1,
     [SEv.lockS] ++ r.2 ++ [SEv.clientDraw r.1.redisplay_texture] ++
     (if !clientConsumed then [SEv.defaultDraw r.1.redisplay_texture] else []) ++
     [SEv.unlockS])

/-! ### Dummy window message queue -/

/-- `GstGLMessage`: a one-shot unit of work; callback and destroy function
pointers may be NULL, `data` is the opaque context pointer. -/
structure GLMessage where
  hasCallback : Bool
  hasDestroy : Bool
  data : Nat
deriving DecidableEq, Repr

/-- Observable actions on the window side. -/
inductive WEv
  | cbRun (d : Nat)
  | destroyRun (d : Nat)
  | msgFreed (d : Nat)
  | lockW
  | unlockW
  | aliveSet (b : Bool)
  | backendQuit
  | drawCbRun
deriving DecidableEq, Repr

/-- `_run_message`: run the callback if non-NULL, then the destroy function
if non-NULL, free the message slice, and return FALSE (`G_SOURCE_REMOVE`) so
the idle source is removed after this single dispatch. -/
def runMessage (m : GLMessage) : List WEv × Bool :=
  ((if m.hasCallback then [WEv.cbRun m.data] else []) ++
   (if m.hasDestroy then [WEv.destroyRun m.data] else []) ++
   [WEv.msgFreed m.data],
   false)

/-- `gst_gl_dummy_window_send_message_async`: allocate the message record and
attach it to the window's main context (append to the pending queue). -/
def gst_gl_dummy_window_send_message_async (q : List GLMessage)
    (m : GLMessage) : List GLMessage :=
  q ++ [m]

/-- The window thread's loop dispatching every queued message in enqueue
order; each source fires once and is removed because `_run_message` returns
FALSE. -/
def dispatchAll : List GLMessage → List WEv
  | [] => []
  | m :: rest => (runMessage m).1 ++ dispatchAll rest

/-- `gst_gl_dummy_window_close` reached with messages still pending: the loop
and the main context are unreffed; `g_main_context_invoke` attached no
destroy-notify to the idle sources, so no pending message's callback or
destroy function is run (the closures are abandoned). -/
def gst_gl_dummy_window_close_pending (_q : List GLMessage) : List WEv := []

/-! ### Window runloop: quit and draw -/

/-- The window state `gst_gl_window_quit` / `gst_gl_window_draw` touch, for
the dummy backend: `priv->alive`, `is_drawing`, whether the dummy main loop
is running, whether a draw callback is registered, the queued draw messages,
and how often the registered draw callback has been invoked. -/
structure DummyWinState where
  alive : Bool
  is_drawing : Bool
  loopRunning : Bool
  hasDrawCb : Bool
  pendingDraws : Nat
  drawInvocations : Nat
deriving DecidableEq, Repr

/-- `gst_gl_window_quit`: take the window lock, set `priv->alive` to FALSE,
invoke the backend quit (`g_main_loop_quit` stops the dummy loop), unlock. -/
def gst_gl_window_quit (w : DummyWinState) : DummyWinState × List WEv :=
  ({ w with alive := false, loopRunning := false },
   [WEv.lockW, WEv.aliveSet false, WEv.backendQuit, WEv.unlockW])

/-- `gst_gl_window_draw`: drop the request if a draw is already in progress;
otherwise the dummy backend's draw sends a message that will run `draw_cb`
on the window thread (queued for the main loop). -/
def gst_gl_window_draw (w : DummyWinState) : DummyWinState :=
  if w.is_drawing then w
  else { w with pendingDraws := w.pendingDraws + 1 }

/-- `draw_cb`, run on the window thread when the loop dispatches a queued
draw message: invokes the registered draw callback, if any, then swaps
buffers through the context. -/
def draw_cb (w : DummyWinState) : DummyWinState × List WEv :=
  if w.hasDrawCb then
    ({ w with drawInvocations := w.drawInvocations + 1 }, [WEv.drawCbRun])
  else (w, [])

/-- One main-loop iteration of the dummy window: only a running loop
dispatches a pending draw message. -/
def dummyLoopIterate (w : DummyWinState) : DummyWinState × List WEv :=
  if w.loopRunning then
    match w.pendingDraws with
    | 0 => (w, [])
    | n + 1 => draw_cb { w with pendingDraws := n }
  else (w, [])

/-- The operations another thread can perform after `quit` returned: call
`gst_gl_window_draw` again, or let the (stopped) loop attempt an
iteration. -/
inductive WinOp
  | drawOp
  | iterateOp
deriving DecidableEq, Repr

def winStep (w : DummyWinState) : WinOp → DummyWinState × List WEv
  | .drawOp => (gst_gl_window_draw w, [])
  | .iterateOp => dummyLoopIterate w

def winRun (w : DummyWinState) : List WinOp → DummyWinState × List WEv
  | [] => (w, [])
  | op :: ops =>
      let r := winStep w op
      let rest := winRun r.1 ops
      (rest.1, r.2 ++ rest.2)

/-! ### Callback registry -/

/-- One registered callback: whether the function pointer is non-NULL, the
opaque context pointer, and whether a destroy notify was supplied. -/
structure CbSlot where
  hasCb : Bool
  data : Nat
  hasNotify : Bool
deriving DecidableEq, Repr

inductive CbKind
  | drawK
  | resizeK
  | closeK
deriving DecidableEq, Repr

/-- The three single-slot callback registrations of a `GstGLWindow`. -/
structure CbRegistry where
  drawSlot : CbSlot
  resizeSlot : CbSlot
  closeSlot : CbSlot
deriving DecidableEq, Repr

inductive REv
  | lockR
  | unlockR
  | notifyRun (k : CbKind) (d : Nat)
  | installed (k : CbKind)
deriving DecidableEq, Repr

/-- `gst_gl_window_set_draw_callback`: under the window lock, run the prior
registration's destroy notify on its context pointer if one was set, then
install the new callback, data and notify. -/
def gst_gl_window_set_draw_callback (w : CbRegistry) (s : CbSlot) :
    CbRegistry × List REv :=
  ({ w with drawSlot := s },
   [REv.lockR] ++
   (if w.drawSlot.hasNotify then [REv.notifyRun .drawK w.drawSlot.data]
    else []) ++
   [REv.installed .drawK, REv.unlockR])

/-- `gst_gl_window_set_resize_callback`: same replacement protocol for the
resize slot. -/
def gst_gl_window_set_resize_callback (w : CbRegistry) (s : CbSlot) :
    CbRegistry × List REv :=
  ({ w with resizeSlot := s },
   [REv.lockR] ++
   (if w.resizeSlot.hasNotify then [REv.notifyRun .resizeK w.resizeSlot.data]
    else []) ++
   [REv.installed .resizeK, REv.unlockR])

/-- `gst_gl_window_set_close_callback`: same replacement protocol for the
close slot. -/
def gst_gl_window_set_close_callback (w : CbRegistry) (s : CbSlot) :
    CbRegistry × List REv :=
  ({ w with closeSlot := s },
   [REv.lockR] ++
   (if w.closeSlot.hasNotify then [REv.notifyRun .closeK w.closeSlot.data]
    else []) ++
   [REv.installed .closeK, REv.unlockR])

/-! ### Synchronous message round trip -/

/-- `GstGLSyncMessage`: the record `gst_gl_window_default_send_message`
builds on its stack — the user callback (acting on shared state `σ`) and the
`fired` flag guarded by the record's mutex/cond. -/
structure SyncMessage (σ : Type) where
  callback : σ → σ
  fired : Bool

/-- `_run_message_sync`, executed on the window thread: run the wrapped
callback, then set `fired` and signal the condition. -/
def runMessageSync {σ : Type} (m : SyncMessage σ) (s : σ) :
    SyncMessage σ × σ :=
  ({ m with fired := true }, m.callback s)

/-- The state of one `gst_gl_window_default_send_message` round trip:
the shared state the callback mutates, the sync-message record, whether the
async message wrapping `_run_message_sync` is still queued, a ghost flag
recording that the callback has completed on the window thread, and whether
the caller's wait has completed. -/
structure SendSys (σ : Type) where
  shared : σ
  msg : SyncMessage σ
  pending : Bool
  cbDone : Bool
  returned : Bool

/-- The two threads of the round trip. -/
inductive SyncThread
  | windowT
  | callerT
deriving DecidableEq, Repr

/-- One scheduler step: the window thread dispatches the queued async message
(running `_run_message_sync`); the caller's `g_cond_wait` loop completes only
once it observes `fired`. -/
def sendStep {σ : Type} (st : SendSys σ) : SyncThread → SendSys σ
  | .windowT =>
      if st.pending then
        let r := runMessageSync st.msg st.shared
        { st with msg := r.1, shared := r.2, pending := false, cbDone := true }
      else st
  | .callerT =>
      if st.msg.fired && !st.returned then { st with returned := true }
      else st

def sendRun {σ : Type} (st : SendSys σ) : List SyncThread → SendSys σ
  | [] => st
  | t :: ts => sendRun (sendStep st t) ts

/-- `gst_gl_window_default_send_message` up to the wait: the message record
is built with `fired = FALSE` and `_run_message_sync` is enqueued
asynchronously. -/
def sendInit {σ : Type} (cb : σ → σ) (s : σ) : SendSys σ :=
  { shared := s
    msg := { callback := cb, fired := false }
    pending := true
    cbDone := false
    returned := false }

/-- The invariant tying `fired` to callback completion in the sync round
trip. -/
def SendInv {σ : Type} (cb : σ → σ) (s0 : σ) (st : SendSys σ) : Prop :=
  st.msg.callback = cb ∧
  (st.pending = true → st.shared = s0 ∧ st.msg.fired = false) ∧
  (st.msg.fired = true →
    st.cbDone = true ∧ st.shared = cb s0 ∧ st.pending = false) ∧
  (st.returned = true → st.msg.fired = true)

/-- A concrete sink state with no compiled shader, used to exercise the
failing-compile paths. -/
def sinkStateA : SinkState where
  redisplay_texture := 0
  stored_buffer := none
  next_tex := 5
  next_buffer := some 7
  redisplay_shader := false
  window_width := 4
  window_height := 3
  video_width := 4
  video_height := 3
  caps_change := false
  keep_aspect_ratio := true
  to_quit := false

/-- A concrete sink state holding a previously presented frame (stored buffer
1) with a new frame prepared (texture 5, buffer 2) and a compiled shader. -/
def sinkStateB : SinkState where
  redisplay_texture := 4
  stored_buffer := some 1
  next_tex := 5
  next_buffer := some 2
  redisplay_shader := true
  window_width := 4
  window_height := 3
  video_width := 4
  video_height := 3
  caps_change := false
  keep_aspect_ratio := true
  to_quit := false

end GstGL

/-! ### Theorems for the factory claims -/

/-- C4: for every non-NULL display argument, `gst_gl_window_new` returns a
non-NULL window object: whatever backends are compiled in, succeed or match
the override, the factory falls back to the dummy window instead of
returning NULL. -/
theorem gst_gl_window_new_never_null (cfg : GstGL.FactoryConfig) (d : Nat)
    (choice : Option String) :
    ∃ w : GstGL.GLWindow, GstGL.gst_gl_window_new cfg (some d) choice = some w := by
  unfold GstGL.gst_gl_window_new
  cases GstGL.chooseBackend cfg choice with
  | none => exact ⟨GstGL.GLWindow.dummy, rfl⟩
  | some b => exact ⟨GstGL.GLWindow.platform b, rfl⟩

/-- C9 counterexample: with only the x11 backend compiled in and working and
the override set to a string matching no backend name, the code goes straight
to the dummy window, while the claim's fallback-through-priority-order
behaviour would select the x11 backend. -/
theorem window_new_unmatched_override_skips_backends :
    GstGL.gst_gl_window_new GstGL.x11OnlyConfig (some 1) (some "zzz") =
      some GstGL.GLWindow.dummy ∧
    GstGL.gst_gl_window_new_claimed GstGL.x11OnlyConfig (some 1) (some "zzz") =
      some (GstGL.GLWindow.platform GstGL.Backend.x11) ∧
    GstGL.GLWindow.dummy ≠ GstGL.GLWindow.platform GstGL.Backend.x11 := by
  refine ⟨by decide, by decide, by decide⟩

/-- C9 amended: with the override unset every compiled-in backend is tried in
the fixed priority order (the result is the first compiled-in backend whose
creation succeeds, else the dummy); with the override set but matching no
backend name, no platform backend is tried at all and the factory creates the
dummy window directly. -/
theorem window_new_selection_order (cfg : GstGL.FactoryConfig) (d : Nat)
    (s : String)
    (hnomatch : ∀ b : GstGL.Backend,
      GstGL.gStrstrLen s (GstGL.backendName b).length (GstGL.backendName b)
        = false) :
    GstGL.gst_gl_window_new cfg (some d) none =
      some (match GstGL.priorityOrder.find?
              (fun b => cfg.compiledIn b && cfg.newSucceeds b) with
            | some b => GstGL.GLWindow.platform b
            | none => GstGL.GLWindow.dummy) ∧
    GstGL.gst_gl_window_new cfg (some d) (some s) =
      some GstGL.GLWindow.dummy := by
  constructor
  · have h : GstGL.chooseBackend cfg none =
        GstGL.priorityOrder.find? (fun b => cfg.compiledIn b && cfg.newSucceeds b) := by
      unfold GstGL.chooseBackend
      congr 1
      funext b
      simp [GstGL.tryBackend]
    unfold GstGL.gst_gl_window_new
    rw [h]
  · have h : GstGL.chooseBackend cfg (some s) = none := by
      unfold GstGL.chooseBackend
      apply List.find?_eq_none.mpr
      intro b _
      simp [GstGL.tryBackend, hnomatch b]
    unfold GstGL.gst_gl_window_new
    rw [h]

/-- Witness for C9's amended theorem at a concrete configuration and a
concrete unmatched override string. -/
theorem window_new_selection_order_witness :
    GstGL.gst_gl_window_new GstGL.x11OnlyConfig (some 1) none =
      some (match GstGL.priorityOrder.find?
              (fun b => GstGL.x11OnlyConfig.compiledIn b &&
                GstGL.x11OnlyConfig.newSucceeds b) with
            | some b => GstGL.GLWindow.platform b
            | none => GstGL.GLWindow.dummy) ∧
    GstGL.gst_gl_window_new GstGL.x11OnlyConfig (some 1) (some "zzz") =
      some GstGL.GLWindow.dummy :=
  window_new_selection_order GstGL.x11OnlyConfig 1 "zzz" (by decide)

/-! ### Theorems for the render-coordinator claims -/

/-- C10: for every resize-callback invocation, whatever integer width and
height arrive (zero and negative included), the sink clamps both to a minimum
of 1 before storing them, so the stored `window_width` and `window_height`
are always at least 1 after any resize. -/
theorem on_resize_clamps_to_at_least_one (s : GstGL.SinkState) (w h : Int)
    (r : Bool) :
    1 ≤ ((GstGL.gst_glimage_sink_on_resize s w h r).1).window_width ∧
    1 ≤ ((GstGL.gst_glimage_sink_on_resize s w h r).1).window_height :=
  ⟨le_max_left 1 w, le_max_left 1 h⟩

/-- Helper: one `gst_glimage_sink_redisplay` call with the shader still NULL
against a running window whose compile attempt fails: the shader is
(re)compiled once, ends up NULL again, and the call returns FALSE. -/
theorem redisplay_failed_compile_step (s : GstGL.SinkState)
    (h : s.redisplay_shader = false) :
    GstGL.gst_glimage_sink_redisplay s ⟨true, true, false⟩ =
      ({ s with redisplay_shader := false }, false, [GstGL.SEv.compileAttempt]) := by
  simp [GstGL.gst_glimage_sink_redisplay,
    GstGL.gst_glimage_sink_thread_init_redisplay, h]

/-- C5 amended: while the shader remains NULL and compilation keeps failing,
every `gst_glimage_sink_redisplay` call re-attempts the compilation (one
attempt per call, so `n` calls make `n` attempts, not one), every call
returns FALSE, and the shader stays NULL afterwards. -/
theorem redisplay_refires_compile_and_fails (s : GstGL.SinkState) (n : Nat)
    (h : s.redisplay_shader = false) :
    ((GstGL.redisplayIter ⟨true, true, false⟩ n s).1).redisplay_shader = false ∧
    (GstGL.redisplayIter ⟨true, true, false⟩ n s).2.1 =
      List.replicate n false ∧
    ((GstGL.redisplayIter ⟨true, true, false⟩ n s).2.2).count
      GstGL.SEv.compileAttempt = n := by
  induction n generalizing s with
  | zero => exact ⟨h, rfl, rfl⟩
  | succ n ih =>
      have hstep := redisplay_failed_compile_step s h
      have h1 : ({ s with redisplay_shader := false } :
          GstGL.SinkState).redisplay_shader = false := rfl
      obtain ⟨ha, hb, hc⟩ := ih { s with redisplay_shader := false } h1
      refine ⟨?_, ?_, ?_⟩
      · simpa [GstGL.redisplayIter, hstep] using ha
      · simpa [GstGL.redisplayIter, hstep, List.replicate_succ] using hb
      · simpa [GstGL.redisplayIter, hstep, List.count_cons] using hc

/-- Witness for the amended C5 theorem: two failing-compile redisplay calls
on a concrete state make two compile attempts, both returning FALSE. -/
theorem redisplay_refires_compile_and_fails_witness :
    ((GstGL.redisplayIter ⟨true, true, false⟩ 2 GstGL.sinkStateA).1).redisplay_shader
      = false ∧
    (GstGL.redisplayIter ⟨true, true, false⟩ 2 GstGL.sinkStateA).2.1 =
      List.replicate 2 false ∧
    ((GstGL.redisplayIter ⟨true, true, false⟩ 2 GstGL.sinkStateA).2.2).count
      GstGL.SEv.compileAttempt = 2 :=
  redisplay_refires_compile_and_fails GstGL.sinkStateA 2 rfl

/-- C5 counterexample: on a concrete window-thread lifetime in which the
compilation always fails, two consecutive redisplay calls perform two compile
attempts — not the single attempt per lifetime the claim states — though both
calls do return FALSE. -/
theorem redisplay_compile_not_attempted_once :
    ((GstGL.redisplayIter ⟨true, true, false⟩ 2 GstGL.sinkStateA).2.2).count
      GstGL.SEv.compileAttempt ≠ 1 ∧
    ((GstGL.redisplayIter ⟨true, true, false⟩ 2 GstGL.sinkStateA).2.2).count
      GstGL.SEv.compileAttempt = 2 ∧
    (GstGL.redisplayIter ⟨true, true, false⟩ 2 GstGL.sinkStateA).2.1 =
      [false, false] := by
  refine ⟨by decide, by decide, by decide⟩

/-- C2: a frame presentation publishes the new texture and takes the new
buffer reference strictly between the lock and unlock events, and the old
stored reference is dropped exactly once, strictly after the unlock. -/
theorem show_frame_swaps_under_lock_releases_after (s : GstGL.SinkState)
    (env : GstGL.GLEnv) (nb ob : Nat)
    (hnb : s.next_buffer = some nb) (hob : s.stored_buffer = some ob)
    (hwp : env.windowPresent = true) (hwr : env.windowRunning = true)
    (hok : s.redisplay_shader = true ∨ env.compileOk = true)
    (hq : s.to_quit = false) :
    (GstGL.gst_glimage_sink_show_frame s env).1.redisplay_texture = s.next_tex ∧
    (GstGL.gst_glimage_sink_show_frame s env).1.stored_buffer = some nb ∧
    (GstGL.gst_glimage_sink_show_frame s env).2.1 = true ∧
    ∃ post : List GstGL.SEv,
      (GstGL.gst_glimage_sink_show_frame s env).2.2 =
        [GstGL.SEv.lockS, GstGL.SEv.setTex s.next_tex, GstGL.SEv.refBuf nb,
         GstGL.SEv.storeBuf (some nb), GstGL.SEv.unlockS] ++ post ∧
      post.count (GstGL.SEv.unrefBuf ob) = 1 := by
  obtain ⟨e1, e2, e3⟩ : env = ⟨true, env.windowRunning, env.compileOk⟩ ∧
      True ∧ True := ⟨by cases env; simp_all, trivial, trivial⟩
  rcases hok with hsh | hco
  · refine ⟨?_, ?_, ?_, ⟨[GstGL.SEv.requestDraw, GstGL.SEv.unrefBuf ob], ?_, ?_⟩⟩ <;>
      simp [GstGL.gst_glimage_sink_show_frame, GstGL.gst_glimage_sink_redisplay,
        GstGL.gst_glimage_sink_thread_init_redisplay, hnb, hob, hwp, hwr, hsh, hq]
  · cases hsh2 : s.redisplay_shader with
    | true =>
        refine ⟨?_, ?_, ?_, ⟨[GstGL.SEv.requestDraw, GstGL.SEv.unrefBuf ob], ?_, ?_⟩⟩ <;>
          simp [GstGL.gst_glimage_sink_show_frame, GstGL.gst_glimage_sink_redisplay,
            GstGL.gst_glimage_sink_thread_init_redisplay, hnb, hob, hwp, hwr, hsh2, hq]
    | false =>
        refine ⟨?_, ?_, ?_, ⟨[GstGL.SEv.compileAttempt, GstGL.SEv.requestDraw,
          GstGL.SEv.unrefBuf ob], ?_, ?_⟩⟩ <;>
          simp [GstGL.gst_glimage_sink_show_frame, GstGL.gst_glimage_sink_redisplay,
            GstGL.gst_glimage_sink_thread_init_redisplay, hnb, hob, hwp, hwr, hsh2,
            hco, hq]

/-- Witness for C2 at a concrete presentation: stored buffer 1 is replaced by
buffer 2 / texture 5 under the lock and released after it. -/
theorem show_frame_swaps_witness :
    (GstGL.gst_glimage_sink_show_frame GstGL.sinkStateB
        ⟨true, true, true⟩).1.redisplay_texture = GstGL.sinkStateB.next_tex ∧
    (GstGL.gst_glimage_sink_show_frame GstGL.sinkStateB
        ⟨true, true, true⟩).1.stored_buffer = some 2 ∧
    (GstGL.gst_glimage_sink_show_frame GstGL.sinkStateB
        ⟨true, true, true⟩).2.1 = true ∧
    ∃ post : List GstGL.SEv,
      (GstGL.gst_glimage_sink_show_frame GstGL.sinkStateB
          ⟨true, true, true⟩).2.2 =
        [GstGL.SEv.lockS, GstGL.SEv.setTex GstGL.sinkStateB.next_tex,
         GstGL.SEv.refBuf 2, GstGL.SEv.storeBuf (some 2), GstGL.SEv.unlockS] ++
          post ∧
      post.count (GstGL.SEv.unrefBuf 1) = 1 :=
  show_frame_swaps_under_lock_releases_after GstGL.sinkStateB ⟨true, true, true⟩
    2 1 rfl rfl rfl rfl (Or.inl rfl) rfl

/-- C3: both the drain request and the PAUSED→READY transition set
`redisplay_texture` to 0 and clear the stored buffer reference together
between the lock and unlock events, and on the resulting state the draw
callback is a no-op: it takes and drops the lock, emits nothing else, and
leaves the state unchanged (so draws stay no-ops until a new frame is
presented). -/
theorem drain_and_state_down_clear_and_suppress_draw (s : GstGL.SinkState)
    (c r : Bool) :
    (GstGL.gst_glimage_sink_query_drain s).1.redisplay_texture = 0 ∧
    (GstGL.gst_glimage_sink_query_drain s).1.stored_buffer = none ∧
    (GstGL.gst_glimage_sink_change_state_paused_to_ready s).1.redisplay_texture
      = 0 ∧
    (GstGL.gst_glimage_sink_change_state_paused_to_ready s).1.stored_buffer
      = none ∧
    (∃ mid rest, (GstGL.gst_glimage_sink_query_drain s).2 =
        [GstGL.SEv.lockS] ++ mid ++ [GstGL.SEv.unlockS] ++ rest ∧
      GstGL.SEv.setTex 0 ∈ mid ∧ GstGL.SEv.storeBuf none ∈ mid) ∧
    (∃ mid rest, (GstGL.gst_glimage_sink_change_state_paused_to_ready s).2 =
        [GstGL.SEv.lockS] ++ mid ++ [GstGL.SEv.unlockS] ++ rest ∧
      GstGL.SEv.setTex 0 ∈ mid ∧ GstGL.SEv.storeBuf none ∈ mid) ∧
    GstGL.gst_glimage_sink_on_draw
        (GstGL.gst_glimage_sink_query_drain s).1 c r =
      ((GstGL.gst_glimage_sink_query_drain s).1,
       [GstGL.SEv.lockS, GstGL.SEv.unlockS]) ∧
    GstGL.gst_glimage_sink_on_draw
        (GstGL.gst_glimage_sink_change_state_paused_to_ready s).1 c r =
      ((GstGL.gst_glimage_sink_change_state_paused_to_ready s).1,
       [GstGL.SEv.lockS, GstGL.SEv.unlockS]) := by
  refine ⟨rfl, rfl, rfl, rfl, ?_, ?_, ?_, ?_⟩
  · cases hb : s.stored_buffer with
    | none =>
        exact ⟨[GstGL.SEv.setTex 0, GstGL.SEv.storeBuf none],
          [GstGL.SEv.clearNextBuf],
          by simp [GstGL.gst_glimage_sink_query_drain, hb], by simp, by simp⟩
    | some b =>
        exact ⟨[GstGL.SEv.setTex 0, GstGL.SEv.storeBuf none],
          [GstGL.SEv.unrefBuf b, GstGL.SEv.clearNextBuf],
          by simp [GstGL.gst_glimage_sink_query_drain, hb], by simp, by simp⟩
  · cases hb : s.stored_buffer with
    | none =>
        exact ⟨[GstGL.SEv.setTex 0, GstGL.SEv.storeBuf none],
          [GstGL.SEv.clearNextBuf],
          by simp [GstGL.gst_glimage_sink_change_state_paused_to_ready, hb],
          by simp, by simp⟩
    | some b =>
        exact ⟨[GstGL.SEv.setTex 0, GstGL.SEv.unrefBuf b,
            GstGL.SEv.storeBuf none],
          [GstGL.SEv.clearNextBuf],
          by simp [GstGL.gst_glimage_sink_change_state_paused_to_ready, hb],
          by simp, by simp⟩
  · simp [GstGL.gst_glimage_sink_on_draw, GstGL.gst_glimage_sink_query_drain]
  · simp [GstGL.gst_glimage_sink_on_draw,
      GstGL.gst_glimage_sink_change_state_paused_to_ready]

/-! ### Theorems for the window-side claims -/

/-- Helper: every scheduler step preserves the sync round-trip invariant. -/
theorem sendStep_preserves_inv {σ : Type} (cb : σ → σ) (s0 : σ)
    (st : GstGL.SendSys σ) (h : GstGL.SendInv cb s0 st)
    (t : GstGL.SyncThread) : GstGL.SendInv cb s0 (GstGL.sendStep st t) := by
  obtain ⟨h1, h2, h3, h4⟩ := h
  cases t with
  | windowT =>
      cases hp : st.pending with
      | true =>
          obtain ⟨hs, _⟩ := h2 hp
          have hstep : GstGL.sendStep st .windowT =
              { st with msg := { st.msg with fired := true }
                        shared := st.msg.callback st.shared
                        pending := false
                        cbDone := true } := by
            simp [GstGL.sendStep, hp, GstGL.runMessageSync]
          rw [hstep]
          refine ⟨h1, ?_, ?_, ?_⟩
          · intro hpend
            simp at hpend
          · intro _
            refine ⟨rfl, ?_, rfl⟩
            show st.msg.callback st.shared = cb s0
            rw [h1, hs]
          · intro _
            rfl
      | false =>
          have hstep : GstGL.sendStep st .windowT = st := by
            simp [GstGL.sendStep, hp]
          rw [hstep]
          exact ⟨h1, h2, h3, h4⟩
  | callerT =>
      cases hc : (st.msg.fired && !st.returned) with
      | true =>
          have hf : st.msg.fired = true := (Bool.and_eq_true_iff.mp hc).1
          have hstep : GstGL.sendStep st .callerT =
              { st with returned := true } := by
            simp [GstGL.sendStep, hc]
          rw [hstep]
          exact ⟨h1, fun hp => h2 hp, fun hfired => h3 hfired, fun _ => hf⟩
      | false =>
          have hstep : GstGL.sendStep st .callerT = st := by
            simp [GstGL.sendStep, hc]
          rw [hstep]
          exact ⟨h1, h2, h3, h4⟩

/-- Helper: the invariant holds along any schedule. -/
theorem sendRun_preserves_inv {σ : Type} (cb : σ → σ) (s0 : σ)
    (st : GstGL.SendSys σ) (h : GstGL.SendInv cb s0 st)
    (sched : List GstGL.SyncThread) :
    GstGL.SendInv cb s0 (GstGL.sendRun st sched) := by
  induction sched generalizing st with
  | nil => exact h
  | cons t ts ih => exact ih _ (sendStep_preserves_inv cb s0 st h t)

/-- C1: however the window thread and the caller interleave, once
`gst_gl_window_default_send_message`'s wait on the `fired` condition
completes (the call returns), the callback has already completed on the
window thread and its effect on the shared state is visible. -/
theorem send_message_returns_after_callback {σ : Type} (cb : σ → σ) (s0 : σ)
    (sched : List GstGL.SyncThread)
    (h : (GstGL.sendRun (GstGL.sendInit cb s0) sched).returned = true) :
    (GstGL.sendRun (GstGL.sendInit cb s0) sched).cbDone = true ∧
    (GstGL.sendRun (GstGL.sendInit cb s0) sched).shared = cb s0 := by
  have hinit : GstGL.SendInv cb s0 (GstGL.sendInit cb s0) := by
    refine ⟨rfl, fun _ => ⟨rfl, rfl⟩, ?_, ?_⟩ <;>
      simp [GstGL.sendInit]
  obtain ⟨h1, h2, h3, h4⟩ :=
    sendRun_preserves_inv cb s0 (GstGL.sendInit cb s0) hinit sched
  obtain ⟨hc, hs, _⟩ := h3 (h4 h)
  exact ⟨hc, hs⟩

/-- Witness for C1: with the schedule "window thread dispatches, then the
caller wakes", the call returns with the callback done and the shared
counter incremented. -/
theorem send_message_returns_after_callback_witness :
    (GstGL.sendRun (GstGL.sendInit Nat.succ 0)
        [GstGL.SyncThread.windowT, GstGL.SyncThread.callerT]).cbDone = true ∧
    (GstGL.sendRun (GstGL.sendInit Nat.succ 0)
        [GstGL.SyncThread.windowT, GstGL.SyncThread.callerT]).shared =
      Nat.succ 0 :=
  send_message_returns_after_callback Nat.succ 0
    [GstGL.SyncThread.windowT, GstGL.SyncThread.callerT] rfl

/-- C6 amended: for every message that the window thread dispatches, the
destroy function (when supplied) runs exactly once, after the callback, on
the window thread, and the idle source is removed after that single dispatch
(`_run_message` returns FALSE); messages still pending when the window is
torn down are abandoned without their destroy function running. -/
theorem run_message_destroy_after_callback (m : GstGL.GLMessage)
    (h : m.hasDestroy = true) :
    ((GstGL.runMessage m).1).count (GstGL.WEv.destroyRun m.data) = 1 ∧
    (GstGL.runMessage m).1 =
      (if m.hasCallback then [GstGL.WEv.cbRun m.data] else []) ++
        [GstGL.WEv.destroyRun m.data, GstGL.WEv.msgFreed m.data] ∧
    (GstGL.runMessage m).2 = false := by
  cases hC : m.hasCallback <;>
    simp [GstGL.runMessage, h, hC, List.count_cons]

/-- Witness for the amended C6 theorem on a concrete message. -/
theorem run_message_destroy_after_callback_witness :
    ((GstGL.runMessage ⟨true, true, 3⟩).1).count (GstGL.WEv.destroyRun 3) = 1 ∧
    (GstGL.runMessage ⟨true, true, 3⟩).1 =
      (if true then [GstGL.WEv.cbRun 3] else []) ++
        [GstGL.WEv.destroyRun 3, GstGL.WEv.msgFreed 3] ∧
    (GstGL.runMessage ⟨true, true, 3⟩).2 = false :=
  run_message_destroy_after_callback ⟨true, true, 3⟩ rfl

/-- C6 counterexample: a message enqueued with a destroy function and still
pending when the dummy window is closed is dropped without its destroy
function ever running — not the exactly-once invocation the claim states. -/
theorem teardown_drops_pending_destroy :
    (GstGL.gst_gl_dummy_window_close_pending
        (GstGL.gst_gl_dummy_window_send_message_async [] ⟨true, true, 0⟩)).count
      (GstGL.WEv.destroyRun 0) ≠ 1 ∧
    (GstGL.gst_gl_dummy_window_close_pending
        (GstGL.gst_gl_dummy_window_send_message_async [] ⟨true, true, 0⟩)).count
      (GstGL.WEv.destroyRun 0) = 0 := by
  refine ⟨by decide, by decide⟩

/-- Helper: with the runloop stopped, no sequence of further draw requests
and loop iterations invokes the draw callback or changes the invocation
count, and the loop stays stopped. -/
theorem winRun_stopped_no_draw (ops : List GstGL.WinOp)
    (w : GstGL.DummyWinState) (hl : w.loopRunning = false) :
    (GstGL.winRun w ops).1.drawInvocations = w.drawInvocations ∧
    ((GstGL.winRun w ops).2).count GstGL.WEv.drawCbRun = 0 ∧
    (GstGL.winRun w ops).1.loopRunning = false := by
  induction ops generalizing w with
  | nil => exact ⟨rfl, by simp [GstGL.winRun], hl⟩
  | cons op ops ih =>
      cases op with
      | drawOp =>
          have hd : (GstGL.gst_gl_window_draw w).loopRunning = false ∧
              (GstGL.gst_gl_window_draw w).drawInvocations =
                w.drawInvocations := by
            by_cases hi : w.is_drawing = true <;>
              simp [GstGL.gst_gl_window_draw, hi, hl]
          obtain ⟨ha, hb, hc⟩ := ih (GstGL.gst_gl_window_draw w) hd.1
          refine ⟨?_, ?_, ?_⟩ <;>
            simpa [GstGL.winRun, GstGL.winStep, hd.2] using
              (by first
                  | exact ha.trans hd.2
                  | exact hb
                  | exact hc)
      | iterateOp =>
          obtain ⟨ha, hb, hc⟩ := ih w hl
          refine ⟨?_, ?_, ?_⟩ <;>
            simpa [GstGL.winRun, GstGL.winStep, GstGL.dummyLoopIterate, hl]
              using (by first | exact ha | exact hb | exact hc)

/-- C7: `gst_gl_window_quit` sets `priv->alive` to FALSE between taking and
releasing the window lock and before invoking the backend quit, and after it
returns no sequence of draw requests and loop iterations invokes the draw
callback: the invocation count is unchanged. -/
theorem quit_sets_alive_under_lock_then_draw_noop (w : GstGL.DummyWinState)
    (ops : List GstGL.WinOp) :
    (GstGL.gst_gl_window_quit w).2 =
      [GstGL.WEv.lockW, GstGL.WEv.aliveSet false, GstGL.WEv.backendQuit,
       GstGL.WEv.unlockW] ∧
    (GstGL.gst_gl_window_quit w).1.alive = false ∧
    (GstGL.winRun (GstGL.gst_gl_window_quit w).1 ops).1.drawInvocations =
      w.drawInvocations ∧
    ((GstGL.winRun (GstGL.gst_gl_window_quit w).1 ops).2).count
      GstGL.WEv.drawCbRun = 0 := by
  obtain ⟨ha, hb, _⟩ :=
    winRun_stopped_no_draw ops (GstGL.gst_gl_window_quit w).1 rfl
  exact ⟨rfl, rfl, ha, hb⟩

/-- C8: each of the three set-callback operations, under the window lock,
runs the prior registration's destroy notify exactly once with the prior
context pointer (when one was set) before installing the new registration,
and afterwards the registry holds exactly the new registration in that
single slot, the other kinds untouched. -/
theorem set_callback_replaces_prior_under_lock (w : GstGL.CbRegistry)
    (s : GstGL.CbSlot) :
    (GstGL.gst_gl_window_set_draw_callback w s).1 = { w with drawSlot := s } ∧
    (GstGL.gst_gl_window_set_draw_callback w s).2 =
      [GstGL.REv.lockR] ++
      (if w.drawSlot.hasNotify then
         [GstGL.REv.notifyRun .drawK w.drawSlot.data] else []) ++
      [GstGL.REv.installed .drawK, GstGL.REv.unlockR] ∧
    ((GstGL.gst_gl_window_set_draw_callback w s).2).count
      (GstGL.REv.notifyRun .drawK w.drawSlot.data) =
      (if w.drawSlot.hasNotify then 1 else 0) ∧
    (GstGL.gst_gl_window_set_resize_callback w s).1 =
      { w with resizeSlot := s } ∧
    (GstGL.gst_gl_window_set_resize_callback w s).2 =
      [GstGL.REv.lockR] ++
      (if w.resizeSlot.hasNotify then
         [GstGL.REv.notifyRun .resizeK w.resizeSlot.data] else []) ++
      [GstGL.REv.installed .resizeK, GstGL.REv.unlockR] ∧
    ((GstGL.gst_gl_window_set_resize_callback w s).2).count
      (GstGL.REv.notifyRun .resizeK w.resizeSlot.data) =
      (if w.resizeSlot.hasNotify then 1 else 0) ∧
    (GstGL.gst_gl_window_set_close_callback w s).1 =
      { w with closeSlot := s } ∧
    (GstGL.gst_gl_window_set_close_callback w s).2 =
      [GstGL.REv.lockR] ++
      (if w.closeSlot.hasNotify then
         [GstGL.REv.notifyRun .closeK w.closeSlot.data] else []) ++
      [GstGL.REv.installed .closeK, GstGL.REv.unlockR] ∧
    ((GstGL.gst_gl_window_set_close_callback w s).2).count
      (GstGL.REv.notifyRun .closeK w.closeSlot.data) =
      (if w.closeSlot.hasNotify then 1 else 0) := by
  refine ⟨rfl, rfl, ?_, rfl, rfl, ?_, rfl, rfl, ?_⟩
  · cases hn : w.drawSlot.hasNotify <;>
      simp [GstGL.gst_gl_window_set_draw_callback, hn, List.count_cons]
  · cases hn : w.resizeSlot.hasNotify <;>
      simp [GstGL.gst_gl_window_set_resize_callback, hn, List.count_cons]
  · cases hn : w.closeSlot.hasNotify <;>
      simp [GstGL.gst_gl_window_set_close_callback, hn, List.count_cons]
